import Mathlib

/-!
Verification of the redeye test HTTP server (`src/util/server.py`).

The source is a Python module that subclasses `SimpleHTTPRequestHandler`,
overriding `log_date_time_string` (CLF timestamp) and `log_message`
(Common Log Format line written to stdout), plus a `__main__` block that
binds `HTTPServer(("localhost", 8000), ...)`, serves forever, and on
`KeyboardInterrupt` prints a notice to stderr and exits with status 0.

The shallow embedding below models:
  * `datetime.utcnow()` as a broken-down UTC datetime value (`PyDateTime`)
    satisfying the invariants Python `datetime` objects always satisfy
    (`ValidDT`); `strftime` with the format used by the source ignores the
    `microsecond` field;
  * the Python `%` string-formatting operator (`pyFmt` / `pyFormat`) on the
    fragment the program exercises: literal characters, `%%`, `%s`,
    `%d`/`%i`, with conversion flags and field-width digits consumed
    (width padding is not applied; no template in this program uses one);
  * process-observable state as a `World`: the list of `sys.stdout.write`
    calls, the list of stderr lines, the exit status and whether the
    server socket was closed.
-/

namespace Redeye

/-- Broken-down UTC datetime as returned by Python `datetime.utcnow()`.
Python `datetime` objects always satisfy the bounds recorded in `ValidDT`. -/
structure PyDateTime where
  year : Nat
  month : Nat
  day : Nat
  hour : Nat
  minute : Nat
  second : Nat
  microsecond : Nat
deriving DecidableEq, Repr

/-- Gregorian leap-year rule (as implemented by Python `datetime`). -/
def isLeapYear (y : Nat) : Bool :=
  (y % 4 == 0 && y % 100 != 0) || (y % 400 == 0)

/-- Number of days in a month of a given year. -/
def daysInMonth (y m : Nat) : Nat :=
  if m = 2 then (if isLeapYear y then 29 else 28)
  else if m = 4 ∨ m = 6 ∨ m = 9 ∨ m = 11 then 30
  else 31

/-- The invariants of a Python `datetime` value (`MINYEAR = 1`,
`MAXYEAR = 9999`, months 1..12, days 1..month length, 24-hour clock). -/
def ValidDT (dt : PyDateTime) : Prop :=
  1 ≤ dt.year ∧ dt.year ≤ 9999 ∧ 1 ≤ dt.month ∧ dt.month ≤ 12 ∧
  1 ≤ dt.day ∧ dt.day ≤ daysInMonth dt.year dt.month ∧
  dt.hour ≤ 23 ∧ dt.minute ≤ 59 ∧ dt.second ≤ 59 ∧ dt.microsecond ≤ 999999

instance : DecidablePred ValidDT := fun dt => by
  unfold ValidDT
  infer_instance

/-- Two-digit zero-padded decimal rendering, as produced by `strftime`
directives `%d`, `%H`, `%M`, `%S` for in-range values. -/
def pad2 (n : Nat) : String :=
  if n < 10 then "0" ++ toString n else toString n

/-- `strftime` directive `%b`: abbreviated English month name (C locale). -/
def monthAbbrev : Nat → String
  | 1 => "Jan" | 2 => "Feb" | 3 => "Mar" | 4 => "Apr"
  | 5 => "May" | 6 => "Jun" | 7 => "Jul" | 8 => "Aug"
  | 9 => "Sep" | 10 => "Oct" | 11 => "Nov" | 12 => "Dec"
  | _ => ""

/-- Embedding of `RedeyeHTTPRequestHandler.log_date_time_string`:
`datetime.utcnow().strftime('%d/%b/%Y:%H:%M:%S +0000')`.
`%d`, `%H`, `%M`, `%S` zero-pad to two digits, `%b` is the English month
abbreviation, and `%Y` prints the year in decimal (four digits for every
year from 1000 to 9999, which covers every instant `utcnow` can observe). -/
def log_date_time_string (dt : PyDateTime) : String :=
  pad2 dt.day ++ "/" ++ monthAbbrev dt.month ++ "/" ++ toString dt.year ++ ":" ++
    pad2 dt.hour ++ ":" ++ pad2 dt.minute ++ ":" ++ pad2 dt.second ++ " +0000"

/-- A Python value passed as a `%`-formatting argument by the server's
logging machinery (request line, status code, size: strings; counts: ints). -/
inductive PyVal where
  | str (s : String)
  | int (n : Int)
deriving DecidableEq, Repr

/-- `str()` of a formatting argument, as applied by the `%s` conversion. -/
def strOf : PyVal → String
  | .str s => s
  | .int n => toString n

/-- The exceptions Python `%`-formatting can raise (collectively the
spec's FormattingError). -/
inductive FormatError where
  | notEnoughArguments
  | notAllArgumentsConverted
  | unsupportedFormatChar (c : Char)
  | incompleteFormat
  | incompatibleType
deriving DecidableEq, Repr

/-- Conversion flags and field-width digits of a `%` conversion
specifier (`-`, `+`, space, `#`, `0`, digits). -/
def isFlagOrWidth (c : Char) : Bool :=
  c == '-' || c == '+' || c == ' ' || c == '#' || c.isDigit

/-- Embedding of the Python `%` string-formatting operator on the fragment
this program exercises.  The first argument is `true` while scanning inside
a `%` conversion specifier.  Literal characters are copied; `%%` emits `%`
without consuming an argument; any other conversion character first fetches
the next argument -- CPython's formatter calls `getnextarg` before it
validates the conversion character, so an exhausted argument tuple raises
`notEnoughArguments` even for an unknown conversion -- and only then
dispatches on it: `%s` inserts `str()` of the argument, `%d`/`%i` require
an int, and any other character raises `unsupportedFormatChar`.  Flags and
width digits are consumed (no template in this program carries a field
width, so padding is not applied).  A trailing `%` raises
`incompleteFormat` during parsing; leftover arguments raise
`notAllArgumentsConverted` -- exactly the error conditions and ordering
CPython exhibits for such templates. -/
def pyFmt : Bool → List Char → List PyVal → Except FormatError String
  | false, [], [] => .ok ""
  | false, [], _ :: _ => .error .notAllArgumentsConverted
  | true, [], _ => .error .incompleteFormat
  | false, c :: rest, args =>
    if c = '%' then pyFmt true rest args
    else
      match pyFmt false rest args with
      | .error e => .error e
      | .ok s => .ok (String.singleton c ++ s)
  | true, c :: rest, args =>
    if isFlagOrWidth c then pyFmt true rest args
    else if c = '%' then
      match pyFmt false rest args with
      | .error e => .error e
      | .ok s => .ok (String.singleton '%' ++ s)
    else
      match args with
      | [] => .error .notEnoughArguments
      | v :: vs =>
        if c = 's' then
          match pyFmt false rest vs with
          | .error e => .error e
          | .ok s => .ok (strOf v ++ s)
        else if c = 'd' ∨ c = 'i' then
          match v with
          | PyVal.int n =>
            match pyFmt false rest vs with
            | .error e => .error e
            | .ok s => .ok (toString n ++ s)
          | PyVal.str _ => .error .incompatibleType
        else .error (.unsupportedFormatChar c)

/-- `template % args` for a template string and a tuple of arguments. -/
def pyFormat (tmpl : String) (args : List PyVal) : Except FormatError String :=
  pyFmt false tmpl.data args

/-- Observable process state: the sequence of `sys.stdout.write` calls
(each element is the payload of one write call), the lines printed to
stderr, the exit status if the process has exited, and whether the server
socket has been closed. -/
structure World where
  stdoutWrites : List String
  stderrWrites : List String
  exitCode : Option Nat
  serverClosed : Bool
deriving DecidableEq, Repr

/-- Fresh process state. -/
def World.init : World := ⟨[], [], none, false⟩

/-- Embedding of `RedeyeHTTPRequestHandler.log_message`.  Python evaluates
`format % args` while building the argument tuple, so an exception raised
there propagates to the caller before anything is written.  Otherwise the
outer template `"%s - - [%s] %s\n"` is rendered with the client address,
the timestamp and the rendered message, and the result is passed to
`sys.stdout.write` as one single write call, modelled as appending one
element to `stdoutWrites`.  The returned `Option FormatError` is the
exception propagated to the caller (`none` on success). -/
def log_message (addr : String) (tmpl : String) (args : List PyVal)
    (dt : PyDateTime) (w : World) : World × Option FormatError :=
  match pyFormat tmpl args with
  | .error e => (w, some e)
  | .ok msg =>
    match pyFormat "%s - - [%s] %s\n" [.str addr, .str (log_date_time_string dt), .str msg] with
    | .error e => (w, some e)
    | .ok line => ({ w with stdoutWrites := w.stdoutWrites ++ [line] }, none)

/-- Numeric value of a two-digit-character group. -/
def val2 (a b : Char) : Nat := 10 * (a.toNat - 48) + (b.toNat - 48)

/-- Numeric value of a four-digit-character group. -/
def val4 (a b c d : Char) : Nat :=
  1000 * (a.toNat - 48) + 100 * (b.toNat - 48) + 10 * (c.toNat - 48) + (d.toNat - 48)

/-- Inverse of `monthAbbrev` on the twelve English month abbreviations. -/
def monthFromAbbrev (m1 m2 m3 : Char) : Option Nat :=
  let s := String.mk [m1, m2, m3]
  if s == "Jan" then some 1 else if s == "Feb" then some 2
  else if s == "Mar" then some 3 else if s == "Apr" then some 4
  else if s == "May" then some 5 else if s == "Jun" then some 6
  else if s == "Jul" then some 7 else if s == "Aug" then some 8
  else if s == "Sep" then some 9 else if s == "Oct" then some 10
  else if s == "Nov" then some 11 else if s == "Dec" then some 12
  else none

/-- Decidable matcher for the spec's timestamp pattern
`^\d\d/[A-Za-z][A-Za-z][A-Za-z]/\d\d\d\d:\d\d:\d\d:\d\d \+0000$`
(i.e. `^\d` repeated per the quantifiers of the published pattern). -/
def matchesCLF (s : String) : Bool :=
  match s.data with
  | [d1, d2, a1, m1, m2, m3, a2, y1, y2, y3, y4, c1, h1, h2, c2, n1, n2, c3,
     e1, e2, sp, p1, z1, z2, z3, z4] =>
    d1.isDigit && d2.isDigit && (a1 == '/') && m1.isAlpha && m2.isAlpha && m3.isAlpha &&
    (a2 == '/') && y1.isDigit && y2.isDigit && y3.isDigit && y4.isDigit && (c1 == ':') &&
    h1.isDigit && h2.isDigit && (c2 == ':') && n1.isDigit && n2.isDigit && (c3 == ':') &&
    e1.isDigit && e2.isDigit && (sp == ' ') && (p1 == '+') &&
    (z1 == '0') && (z2 == '0') && (z3 == '0') && (z4 == '0')
  | _ => false

/-- Decoder for a CLF timestamp string: returns
`(year, month, day, hour, minute, second)` when the string is a well-formed
`dd/Mon/yyyy:HH:MM:SS +0000` timestamp. -/
def parseCLF (s : String) : Option (Nat × Nat × Nat × Nat × Nat × Nat) :=
  match s.data with
  | [d1, d2, a1, m1, m2, m3, a2, y1, y2, y3, y4, c1, h1, h2, c2, n1, n2, c3,
     e1, e2, sp, p1, z1, z2, z3, z4] =>
    if d1.isDigit && d2.isDigit && (a1 == '/') && (a2 == '/') &&
       y1.isDigit && y2.isDigit && y3.isDigit && y4.isDigit && (c1 == ':') &&
       h1.isDigit && h2.isDigit && (c2 == ':') && n1.isDigit && n2.isDigit && (c3 == ':') &&
       e1.isDigit && e2.isDigit && (sp == ' ') && (p1 == '+') &&
       (z1 == '0') && (z2 == '0') && (z3 == '0') && (z4 == '0') then
      match monthFromAbbrev m1 m2 m3 with
      | some mo => some (val4 y1 y2 y3 y4, mo, val2 d1 d2, val2 h1 h2, val2 n1 n2, val2 e1 e2)
      | none => none
    else none
  | _ => none

/-- Reference decimal rendering of a natural number (most significant digit
first), used to reason about `Nat.repr`. -/
def natChars (n : Nat) : List Char :=
  if _h : n < 10 then [Nat.digitChar n]
  else natChars (n / 10) ++ [Nat.digitChar (n % 10)]
termination_by n
decreasing_by exact Nat.div_lt_self (by omega) (by omega)

/-- Value of a most-significant-first digit-character list. -/
def digitsVal (l : List Char) : Nat := l.foldl (fun a c => 10 * a + (c.toNat - 48)) 0

/-- Whitespace in the sense of the regex class `\s` (so `\S` is its
negation). -/
def isWS (c : Char) : Bool :=
  c == ' ' || c == '\t' || c == '\n' || c == '\r' || c == '\x0b' || c == '\x0c'

/-- Concatenation of a list of write payloads: the text a reader of the
stream captures. -/
def strConcat : List String → String
  | [] => ""
  | s :: rest => s ++ strConcat rest

/-- Split a character stream into physical lines at `'\n'` (a trailing
fragment without a final newline counts as a line). -/
def splitLinesAux : List Char → List Char → List (List Char)
  | [], acc => if acc.isEmpty then [] else [acc.reverse]
  | c :: cs, acc =>
    if c = '\n' then acc.reverse :: splitLinesAux cs []
    else splitLinesAux cs (c :: acc)

/-- The physical lines of a captured output stream. -/
def splitLines (s : String) : List (List Char) := splitLinesAux s.data []

/-- Strip an expected literal from the front of the input, or fail. -/
def dropLit : List Char → List Char → Option (List Char)
  | [], l => some l
  | _ :: _, [] => none
  | c :: cs, x :: xs => if x = c then dropLit cs xs else none

/-- Decidable matcher for the spec's log-line pattern
`^\S+ - - \[[^\]]+\] .*$`: a nonempty whitespace-free client-address
field, the literal ` - - [`, a nonempty `]`-free timestamp field, the
literal `] `, and a remainder free of newlines. -/
def matchesCLFLine (l : List Char) : Bool :=
  let fld := l.takeWhile (fun c => !(isWS c))
  let rest := l.dropWhile (fun c => !(isWS c))
  if fld.isEmpty then false
  else
    match dropLit (" - - [".data) rest with
    | none => false
    | some r2 =>
      let ts := r2.takeWhile (fun c => !(c == ']'))
      let r3 := r2.dropWhile (fun c => !(c == ']'))
      if ts.isEmpty then false
      else
        match dropLit ("] ".data) r3 with
        | none => false
        | some r4 => r4.all (fun c => !(c == '\n'))

/-- Number of newline characters in a string. -/
def countNL (s : String) : Nat := s.data.count '\n'

/-- One logging-hook invocation issued by the underlying HTTP server:
the client address, the message template with its arguments, and the
instant the wall clock reads when the event is logged. -/
structure LogEvent where
  addr : String
  tmpl : String
  args : List PyVal
  dt : PyDateTime
deriving DecidableEq, Repr

/-- The body (without the terminating newline) of the line `log_message`
emits for an event whose template renders successfully. -/
def eventBody (e : LogEvent) : String :=
  match pyFormat e.tmpl e.args with
  | .ok msg => e.addr ++ " - - [" ++ log_date_time_string e.dt ++ "] " ++ msg
  | .error _ => ""

/-- A well-behaved log event: the wall-clock instant is a valid datetime
of a four-digit year, the client address is nonempty and whitespace-free,
and the template renders successfully to a newline-free message. -/
def goodEvent (e : LogEvent) : Bool :=
  decide (ValidDT e.dt) && decide (1000 ≤ e.dt.year) &&
  !e.addr.data.isEmpty && e.addr.data.all (fun c => !(isWS c)) &&
  (match pyFormat e.tmpl e.args with
   | .ok msg => msg.data.all (fun c => !(c == '\n'))
   | .error _ => false)

/-- Sequential single-threaded issue of log events: each `log_message`
call completes (its write happens or its exception is raised) before the
next event is issued, exactly as the synchronous Python call does. -/
def runEvents : List LogEvent → World → World
  | [], w => w
  | e :: es, w => runEvents es (log_message e.addr e.tmpl e.args e.dt w).1

/-- Two instants within the same second: all broken-down fields agree
except possibly the sub-second (`microsecond`) component. -/
def sameSecond (dt1 dt2 : PyDateTime) : Prop :=
  dt1.year = dt2.year ∧ dt1.month = dt2.month ∧ dt1.day = dt2.day ∧
  dt1.hour = dt2.hour ∧ dt1.minute = dt2.minute ∧ dt1.second = dt2.second

/-- The host the `__main__` block hard-codes. -/
def host : String := "localhost"

/-- The port the `__main__` block hard-codes. -/
def port : Nat := 8000

/-- The address tuple passed to `HTTPServer` at startup.  It is built from
the two literals above; the `__main__` block reads no command line,
environment or file input, so no other bind configuration exists. -/
def serverAddress : String × Nat := (host, port)

/-- The startup notice printed to stderr before serving. -/
def startNotice : String := "Starting server on " ++ host ++ ":" ++ toString port

/-- The shutdown notice printed to stderr on `KeyboardInterrupt`. -/
def exitNotice : String := "Exiting on SIGINT"

/-- Embedding of the `__main__` block on the interrupt path: the startup
notice goes to stderr, `serve_forever()` runs until a `KeyboardInterrupt`
is raised, the `except` clause prints the shutdown notice to stderr and
calls `sys.exit(0)` (raising `SystemExit`), the `finally` clause closes
the server socket, and the process then terminates with status 0. -/
def mainOnInterrupt (w : World) : World :=
  let w1 := { w with stderrWrites := w.stderrWrites ++ [startNotice] }
  let w2 := { w1 with stderrWrites := w1.stderrWrites ++ [exitNotice] }
  let w3 := { w2 with serverClosed := true }
  { w3 with exitCode := some 0 }

/-- A concrete valid instant used by witnesses: 2026-10-12 03:04:05.000099 UTC. -/
def dt0 : PyDateTime := ⟨2026, 10, 12, 3, 4, 5, 99⟩

/-- The same second as `dt0` at a later sub-second instant. -/
def dt0' : PyDateTime := ⟨2026, 10, 12, 3, 4, 5, 500000⟩

/-- A log event whose rendered message embeds a newline. -/
def evNL : LogEvent := ⟨"127.0.0.1", "%s", [.str "a\nb"], dt0⟩

/-- A well-behaved concrete log event (a normal GET request). -/
def ev0 : LogEvent :=
  ⟨"127.0.0.1", "\"%s\" %s %s", [.str "GET / HTTP/1.1", .str "200", .str "1024"], dt0⟩

/-! ## Lemmas about strings and decimal renderings -/

theorem str_data_append (s t : String) : (s ++ t).data = s.data ++ t.data := by
  cases s
  cases t
  rfl

theorem str_eq_of_data (a b : String) (h : a.data = b.data) : a = b := by
  cases a
  cases b
  exact congrArg String.mk h

theorem toDigitsCore_eq (fuel : Nat) : ∀ (n : Nat) (ds : List Char), n < fuel →
    Nat.toDigitsCore 10 fuel n ds = natChars n ++ ds := by
  induction fuel with
  | zero => intro n ds h; omega
  | succ fuel ih =>
    intro n ds h
    unfold Nat.toDigitsCore
    by_cases h10 : n / 10 = 0
    · rw [if_pos h10]
      have hn : n < 10 := by omega
      unfold natChars
      rw [dif_pos hn, Nat.mod_eq_of_lt hn]
      rfl
    · rw [if_neg h10]
      rw [ih (n / 10) _ (by omega)]
      conv_rhs => unfold natChars
      rw [dif_neg (by omega)]
      simp

theorem toString_nat_data (n : Nat) : (toString n).data = natChars n := by
  show (Nat.repr n).data = natChars n
  unfold Nat.repr Nat.toDigits
  rw [toDigitsCore_eq (n + 1) n [] (Nat.lt_succ_self n)]
  simp [List.asString]

theorem digitChar_isDigit : ∀ m, m < 10 → (Nat.digitChar m).isDigit = true := by decide

theorem digitChar_val : ∀ m, m < 10 → (Nat.digitChar m).toNat - 48 = m := by decide

theorem natChars_digits (n : Nat) : ∀ c ∈ natChars n, c.isDigit = true := by
  induction n using Nat.strong_induction_on with
  | _ n ih =>
    unfold natChars
    split
    · next h =>
      intro c hc
      simp only [List.mem_singleton] at hc
      subst hc
      exact digitChar_isDigit n h
    · next h =>
      intro c hc
      rw [List.mem_append] at hc
      rcases hc with hc | hc
      · exact ih (n / 10) (Nat.div_lt_self (by omega) (by omega)) c hc
      · simp only [List.mem_singleton] at hc
        subst hc
        exact digitChar_isDigit _ (Nat.mod_lt _ (by omega))

theorem digitsVal_append_digit (xs : List Char) (c : Char) :
    digitsVal (xs ++ [c]) = 10 * digitsVal xs + (c.toNat - 48) := by
  unfold digitsVal
  rw [List.foldl_append]
  rfl

theorem natChars_val (n : Nat) : digitsVal (natChars n) = n := by
  induction n using Nat.strong_induction_on with
  | _ n ih =>
    unfold natChars
    split
    · next h =>
      show digitsVal [Nat.digitChar n] = n
      unfold digitsVal
      simp [digitChar_val n h]
    · next h =>
      rw [digitsVal_append_digit, ih (n / 10) (Nat.div_lt_self (by omega) (by omega)),
        digitChar_val _ (Nat.mod_lt _ (by omega))]
      omega

theorem natChars_len_small (n : Nat) (h : n < 10) : (natChars n).length = 1 := by
  unfold natChars
  rw [dif_pos h]
  rfl

theorem natChars_len_step (n : Nat) (h : 10 ≤ n) :
    (natChars n).length = (natChars (n / 10)).length + 1 := by
  conv_lhs => unfold natChars
  rw [dif_neg (by omega)]
  simp

theorem natChars_len2 (n : Nat) (h1 : 10 ≤ n) (h2 : n ≤ 99) :
    (natChars n).length = 2 := by
  rw [natChars_len_step n (by omega), natChars_len_small (n / 10) (by omega)]

theorem natChars_len4 (n : Nat) (h1 : 1000 ≤ n) (h2 : n ≤ 9999) :
    (natChars n).length = 4 := by
  rw [natChars_len_step n (by omega), natChars_len_step (n / 10) (by omega),
    natChars_len_step (n / 10 / 10) (by omega),
    natChars_len_small (n / 10 / 10 / 10) (by omega)]

theorem year_shape (y : Nat) (h1 : 1000 ≤ y) (h2 : y ≤ 9999) :
    ∃ a b c d, (toString y).data = [a, b, c, d] ∧ a.isDigit = true ∧ b.isDigit = true ∧
      c.isDigit = true ∧ d.isDigit = true ∧ val4 a b c d = y := by
  have hdata := toString_nat_data y
  have hlen : (natChars y).length = 4 := natChars_len4 y h1 h2
  have hdig := natChars_digits y
  have hval := natChars_val y
  rcases hnc : natChars y with _ | ⟨a, _ | ⟨b, _ | ⟨c, _ | ⟨d, _ | _⟩⟩⟩⟩ <;>
    rw [hnc] at hlen <;> simp at hlen
  rw [hnc] at hdata hdig hval
  refine ⟨a, b, c, d, hdata, hdig a (by simp), hdig b (by simp), hdig c (by simp),
    hdig d (by simp), ?_⟩
  unfold digitsVal at hval
  simp only [List.foldl_cons, List.foldl_nil] at hval
  unfold val4
  omega

theorem pad2_shape (n : Nat) (h : n ≤ 99) :
    ∃ a b, (pad2 n).data = [a, b] ∧ a.isDigit = true ∧ b.isDigit = true ∧ val2 a b = n := by
  by_cases h10 : n < 10
  · have hd := toString_nat_data n
    have hnc : natChars n = [Nat.digitChar n] := by
      unfold natChars
      rw [dif_pos h10]
    refine ⟨'0', Nat.digitChar n, ?_, rfl, digitChar_isDigit n h10, ?_⟩
    · unfold pad2
      rw [if_pos h10, str_data_append, hd, hnc]
      rfl
    · unfold val2
      rw [digitChar_val n h10]
      have h0 : '0'.toNat = 48 := rfl
      omega
  · have hdata := toString_nat_data n
    have hlen : (natChars n).length = 2 := natChars_len2 n (by omega) h
    have hdig := natChars_digits n
    have hval := natChars_val n
    rcases hnc : natChars n with _ | ⟨a, _ | ⟨b, _ | _⟩⟩ <;>
      rw [hnc] at hlen <;> simp at hlen
    rw [hnc] at hdata hdig hval
    refine ⟨a, b, ?_, hdig a (by simp), hdig b (by simp), ?_⟩
    · unfold pad2
      rw [if_neg h10]
      exact hdata
    · unfold digitsVal at hval
      simp only [List.foldl_cons, List.foldl_nil] at hval
      unfold val2
      omega

theorem month_shape (m : Nat) (h1 : 1 ≤ m) (h2 : m ≤ 12) :
    ∃ a b c, (monthAbbrev m).data = [a, b, c] ∧ a.isAlpha = true ∧ b.isAlpha = true ∧
      c.isAlpha = true ∧ monthFromAbbrev a b c = some m := by
  interval_cases m <;> exact ⟨_, _, _, rfl, rfl, rfl, rfl, rfl⟩

theorem daysInMonth_le (y m : Nat) : daysInMonth y m ≤ 31 := by
  unfold daysInMonth
  split_ifs <;> omega

/-! ## The shape of a generated timestamp -/

theorem ts_shape (dt : PyDateTime) (hv : ValidDT dt) (hy : 1000 ≤ dt.year) :
    ∃ d1 d2 m1 m2 m3 y1 y2 y3 y4 h1 h2 n1 n2 s1 s2,
      (log_date_time_string dt).data =
        [d1, d2, '/', m1, m2, m3, '/', y1, y2, y3, y4, ':', h1, h2, ':', n1, n2, ':', s1, s2,
         ' ', '+', '0', '0', '0', '0'] ∧
      d1.isDigit = true ∧ d2.isDigit = true ∧ val2 d1 d2 = dt.day ∧
      m1.isAlpha = true ∧ m2.isAlpha = true ∧ m3.isAlpha = true ∧
      monthFromAbbrev m1 m2 m3 = some dt.month ∧
      y1.isDigit = true ∧ y2.isDigit = true ∧ y3.isDigit = true ∧ y4.isDigit = true ∧
      val4 y1 y2 y3 y4 = dt.year ∧
      h1.isDigit = true ∧ h2.isDigit = true ∧ val2 h1 h2 = dt.hour ∧
      n1.isDigit = true ∧ n2.isDigit = true ∧ val2 n1 n2 = dt.minute ∧
      s1.isDigit = true ∧ s2.isDigit = true ∧ val2 s1 s2 = dt.second := by
  obtain ⟨hy1, hy2, hm1, hm2, hd1, hd2, hh, hmin, hs, hms⟩ := hv
  have hday : dt.day ≤ 99 := le_trans hd2 (le_trans (daysInMonth_le dt.year dt.month) (by omega))
  obtain ⟨d1, d2, hdD, hdD1, hdD2, hdDv⟩ := pad2_shape dt.day hday
  obtain ⟨m1, m2, m3, hmD, hmA1, hmA2, hmA3, hmM⟩ := month_shape dt.month hm1 hm2
  obtain ⟨y1, y2, y3, y4, hyD, hyD1, hyD2, hyD3, hyD4, hyV⟩ := year_shape dt.year hy hy2
  obtain ⟨h1, h2, hhD, hhD1, hhD2, hhV⟩ := pad2_shape dt.hour (by omega)
  obtain ⟨n1, n2, hnD, hnD1, hnD2, hnV⟩ := pad2_shape dt.minute (by omega)
  obtain ⟨s1, s2, hsD, hsD1, hsD2, hsV⟩ := pad2_shape dt.second (by omega)
  refine ⟨d1, d2, m1, m2, m3, y1, y2, y3, y4, h1, h2, n1, n2, s1, s2, ?_,
    hdD1, hdD2, hdDv, hmA1, hmA2, hmA3, hmM, hyD1, hyD2, hyD3, hyD4, hyV,
    hhD1, hhD2, hhV, hnD1, hnD2, hnV, hsD1, hsD2, hsV⟩
  unfold log_date_time_string
  simp only [str_data_append, hdD, hmD, hyD, hhD, hnD, hsD]
  rfl

theorem digit_not_nl (c : Char) (h : c.isDigit = true) : c ≠ '\n' := by
  intro he
  subst he
  exact absurd h (by decide)

theorem digit_not_rb (c : Char) (h : c.isDigit = true) : c ≠ ']' := by
  intro he
  subst he
  exact absurd h (by decide)

theorem alpha_not_nl (c : Char) (h : c.isAlpha = true) : c ≠ '\n' := by
  intro he
  subst he
  exact absurd h (by decide)

theorem alpha_not_rb (c : Char) (h : c.isAlpha = true) : c ≠ ']' := by
  intro he
  subst he
  exact absurd h (by decide)

theorem matchesCLF_ts (dt : PyDateTime) (hv : ValidDT dt) (hy : 1000 ≤ dt.year) :
    matchesCLF (log_date_time_string dt) = true := by
  obtain ⟨d1, d2, m1, m2, m3, y1, y2, y3, y4, h1, h2, n1, n2, s1, s2, hdata,
    hdD1, hdD2, _, hmA1, hmA2, hmA3, _, hyD1, hyD2, hyD3, hyD4, _,
    hhD1, hhD2, _, hnD1, hnD2, _, hsD1, hsD2, _⟩ := ts_shape dt hv hy
  unfold matchesCLF
  rw [hdata]
  simp [hdD1, hdD2, hmA1, hmA2, hmA3, hyD1, hyD2, hyD3, hyD4, hhD1, hhD2,
    hnD1, hnD2, hsD1, hsD2]

theorem parseCLF_ts (dt : PyDateTime) (hv : ValidDT dt) (hy : 1000 ≤ dt.year) :
    parseCLF (log_date_time_string dt) =
      some (dt.year, dt.month, dt.day, dt.hour, dt.minute, dt.second) := by
  obtain ⟨d1, d2, m1, m2, m3, y1, y2, y3, y4, h1, h2, n1, n2, s1, s2, hdata,
    hdD1, hdD2, hdV, hmA1, hmA2, hmA3, hmM, hyD1, hyD2, hyD3, hyD4, hyV,
    hhD1, hhD2, hhV, hnD1, hnD2, hnV, hsD1, hsD2, hsV⟩ := ts_shape dt hv hy
  unfold parseCLF
  rw [hdata]
  simp [hdD1, hdD2, hmA1, hmA2, hmA3, hmM, hyD1, hyD2, hyD3, hyD4, hhD1, hhD2,
    hnD1, hnD2, hsD1, hsD2, hdV, hyV, hhV, hnV, hsV]

theorem ts_chars (dt : PyDateTime) (hv : ValidDT dt) (hy : 1000 ≤ dt.year) :
    ∀ c ∈ (log_date_time_string dt).data, c ≠ '\n' ∧ c ≠ ']' := by
  obtain ⟨d1, d2, m1, m2, m3, y1, y2, y3, y4, h1, h2, n1, n2, s1, s2, hdata,
    hdD1, hdD2, _, hmA1, hmA2, hmA3, _, hyD1, hyD2, hyD3, hyD4, _,
    hhD1, hhD2, _, hnD1, hnD2, _, hsD1, hsD2, _⟩ := ts_shape dt hv hy
  rw [hdata]
  intro c hc
  simp only [List.mem_cons, List.not_mem_nil, or_false] at hc
  rcases hc with rfl | rfl | rfl | rfl | rfl | rfl | rfl | rfl | rfl | rfl | rfl | rfl |
    rfl | rfl | rfl | rfl | rfl | rfl | rfl | rfl | rfl | rfl | rfl | rfl | rfl | rfl <;>
    first
      | exact ⟨by decide, by decide⟩
      | exact ⟨digit_not_nl _ (by assumption), digit_not_rb _ (by assumption)⟩
      | exact ⟨alpha_not_nl _ (by assumption), alpha_not_rb _ (by assumption)⟩

theorem ts_ne_empty (dt : PyDateTime) (hv : ValidDT dt) (hy : 1000 ≤ dt.year) :
    (log_date_time_string dt).data ≠ [] := by
  obtain ⟨d1, d2, m1, m2, m3, y1, y2, y3, y4, h1, h2, n1, n2, s1, s2, hdata, _⟩ :=
    ts_shape dt hv hy
  rw [hdata]
  simp

/-- C1: for every invocation on a valid wall-clock instant (every instant
`datetime.utcnow()` can return has a four-digit year), the generated
timestamp string matches the fixed CLF pattern
`^\d\d/[A-Za-z][A-Za-z][A-Za-z]/\d\d\d\d:\d\d:\d\d:\d\d \+0000$` and
decodes back to exactly the UTC fields it was generated from, hence to a
UTC time within the same second (the dropped `microsecond` field is the
only sub-second information).  The generator reads the clock in UTC by
construction: its input is the broken-down UTC instant. -/
theorem c1_timestamp_pattern_roundtrip (dt : PyDateTime)
    (hv : ValidDT dt) (hy : 1000 ≤ dt.year) :
    matchesCLF (log_date_time_string dt) = true ∧
    parseCLF (log_date_time_string dt) =
      some (dt.year, dt.month, dt.day, dt.hour, dt.minute, dt.second) :=
  ⟨matchesCLF_ts dt hv hy, parseCLF_ts dt hv hy⟩

/-- Witness for C1 at the concrete instant `dt0`. -/
theorem c1_timestamp_pattern_roundtrip_witness :
    matchesCLF (log_date_time_string dt0) = true ∧
    parseCLF (log_date_time_string dt0) = some (2026, 10, 12, 3, 4, 5) :=
  c1_timestamp_pattern_roundtrip dt0 (by decide) (by decide)

/-! ## Behaviour of log_message -/

theorem pyFormat_outer (a b c : String) :
    pyFormat "%s - - [%s] %s\n" [.str a, .str b, .str c] =
      .ok (a ++ " - - [" ++ b ++ "] " ++ c ++ "\n") := by
  show pyFmt false ('%' :: 's' :: ' ' :: '-' :: ' ' :: '-' :: ' ' :: '[' :: '%' :: 's' ::
    ']' :: ' ' :: '%' :: 's' :: '\n' :: []) [.str a, .str b, .str c] = _
  simp [pyFmt, isFlagOrWidth, strOf]
  apply str_eq_of_data
  simp [str_data_append, String.singleton]

theorem log_message_ok (addr tmpl : String) (args : List PyVal) (dt : PyDateTime)
    (w : World) (msg : String) (h : pyFormat tmpl args = .ok msg) :
    log_message addr tmpl args dt w =
      ({ w with stdoutWrites := w.stdoutWrites ++
          [addr ++ " - - [" ++ log_date_time_string dt ++ "] " ++ msg ++ "\n"] }, none) := by
  simp only [log_message, h, pyFormat_outer]

theorem log_message_err (addr tmpl : String) (args : List PyVal) (dt : PyDateTime)
    (w : World) (e : FormatError) (h : pyFormat tmpl args = .error e) :
    log_message addr tmpl args dt w = (w, some e) := by
  simp only [log_message, h]

theorem ts_same_second (dt1 dt2 : PyDateTime) (h : sameSecond dt1 dt2) :
    log_date_time_string dt1 = log_date_time_string dt2 := by
  obtain ⟨h1, h2, h3, h4, h5, h6⟩ := h
  unfold log_date_time_string
  rw [h1, h2, h3, h4, h5, h6]

/-! ## Claims about log_message -/

/-- C2: whenever the positional substitution of the arguments into the
template succeeds producing `msg`, `log_message` emits exactly
`<clientAddress> - - [<timestamp>] <msg>\n`, and in particular for client
address `127.0.0.1`, template `"%s" %s %s` and arguments
`("GET / HTTP/1.1", "200", "1024")` the produced line is
`127.0.0.1 - - [<ts>] "GET / HTTP/1.1" 200 1024\n` where `<ts>` matches
the CLF timestamp pattern. -/
theorem c2_clf_line (dt : PyDateTime) (w : World) (hv : ValidDT dt) (hy : 1000 ≤ dt.year) :
    (∀ addr tmpl args msg, pyFormat tmpl args = Except.ok msg →
      log_message addr tmpl args dt w =
        ({ w with stdoutWrites := w.stdoutWrites ++
            [addr ++ " - - [" ++ log_date_time_string dt ++ "] " ++ msg ++ "\n"] }, none)) ∧
    log_message "127.0.0.1" "\"%s\" %s %s"
        [.str "GET / HTTP/1.1", .str "200", .str "1024"] dt w =
      ({ w with stdoutWrites := w.stdoutWrites ++
          ["127.0.0.1 - - [" ++ log_date_time_string dt ++ "] \"GET / HTTP/1.1\" 200 1024\n"] },
        none) ∧
    matchesCLF (log_date_time_string dt) = true := by
  refine ⟨fun addr tmpl args msg h => log_message_ok addr tmpl args dt w msg h, ?_,
    matchesCLF_ts dt hv hy⟩
  have hline : "127.0.0.1" ++ " - - [" ++ log_date_time_string dt ++ "] " ++
      "\"GET / HTTP/1.1\" 200 1024" ++ "\n" =
      "127.0.0.1 - - [" ++ log_date_time_string dt ++ "] \"GET / HTTP/1.1\" 200 1024\n" := by
    apply str_eq_of_data
    simp [str_data_append]
  rw [log_message_ok "127.0.0.1" "\"%s\" %s %s"
    [.str "GET / HTTP/1.1", .str "200", .str "1024"] dt w "\"GET / HTTP/1.1\" 200 1024" rfl,
    hline]

/-- Witness for C2 at the concrete instant `dt0` and a fresh world. -/
theorem c2_clf_line_witness :
    log_message "127.0.0.1" "\"%s\" %s %s"
        [.str "GET / HTTP/1.1", .str "200", .str "1024"] dt0 World.init =
      ({ World.init with stdoutWrites := World.init.stdoutWrites ++
          ["127.0.0.1 - - [" ++ log_date_time_string dt0 ++ "] \"GET / HTTP/1.1\" 200 1024\n"] },
        none) ∧
    matchesCLF (log_date_time_string dt0) = true :=
  ⟨(c2_clf_line dt0 World.init (by decide) (by decide)).2.1,
   (c2_clf_line dt0 World.init (by decide) (by decide)).2.2⟩

/-- C3: when template and arguments are mismatched the rendering raises a
formatting error which `log_message` propagates to the caller, writing
nothing at all (the world, in particular standard output, is unchanged);
in particular a template requiring three substitutions applied to two
arguments raises `notEnoughArguments`. -/
theorem c3_formatting_error_no_output :
    (∀ addr tmpl args dt w e, pyFormat tmpl args = Except.error e →
      log_message addr tmpl args dt w = (w, some e)) ∧
    (∀ a b : PyVal, pyFormat "%s %s %s" [a, b] =
      Except.error FormatError.notEnoughArguments) := by
  constructor
  · intro addr tmpl args dt w e h
    exact log_message_err addr tmpl args dt w e h
  · intro a b
    show pyFmt false ('%' :: 's' :: ' ' :: '%' :: 's' :: ' ' :: '%' :: 's' :: []) [a, b] = _
    simp [pyFmt, isFlagOrWidth]

/-- Witness for C3: the three-placeholder template with two arguments at a
concrete invocation leaves the world untouched and surfaces the error. -/
theorem c3_formatting_error_no_output_witness :
    log_message "127.0.0.1" "%s %s %s" [.str "GET / HTTP/1.1", .str "200"] dt0 World.init =
      (World.init, some FormatError.notEnoughArguments) :=
  c3_formatting_error_no_output.1 "127.0.0.1" "%s %s %s"
    [.str "GET / HTTP/1.1", .str "200"] dt0 World.init FormatError.notEnoughArguments
    (c3_formatting_error_no_output.2 (.str "GET / HTTP/1.1") (.str "200"))

/-- C5: a successful `log_message` call appends exactly one write call to
standard output (the complete line in a single write, never split), and
stdout is the only component of the observable world it touches: stderr,
the exit status and the server-socket state are unchanged. -/
theorem c5_single_write_frame (addr tmpl : String) (args : List PyVal) (dt : PyDateTime)
    (w : World) (msg : String) (h : pyFormat tmpl args = Except.ok msg) :
    (∃ line, (log_message addr tmpl args dt w).1.stdoutWrites = w.stdoutWrites ++ [line]) ∧
    (log_message addr tmpl args dt w).2 = none ∧
    (log_message addr tmpl args dt w).1.stderrWrites = w.stderrWrites ∧
    (log_message addr tmpl args dt w).1.exitCode = w.exitCode ∧
    (log_message addr tmpl args dt w).1.serverClosed = w.serverClosed := by
  rw [log_message_ok addr tmpl args dt w msg h]
  exact ⟨⟨_, rfl⟩, rfl, rfl, rfl, rfl⟩

/-- Witness for C5 at a concrete successful invocation. -/
theorem c5_single_write_frame_witness :
    (∃ line, (log_message "127.0.0.1" "%s" [.str "x"] dt0 World.init).1.stdoutWrites =
      World.init.stdoutWrites ++ [line]) ∧
    (log_message "127.0.0.1" "%s" [.str "x"] dt0 World.init).2 = none ∧
    (log_message "127.0.0.1" "%s" [.str "x"] dt0 World.init).1.stderrWrites =
      World.init.stderrWrites ∧
    (log_message "127.0.0.1" "%s" [.str "x"] dt0 World.init).1.exitCode = World.init.exitCode ∧
    (log_message "127.0.0.1" "%s" [.str "x"] dt0 World.init).1.serverClosed =
      World.init.serverClosed :=
  c5_single_write_frame "127.0.0.1" "%s" [.str "x"] dt0 World.init "x" rfl

/-- C6: the produced line is a deterministic function of the inputs and
the current-second timestamp: two calls on the same inputs within the same
second (instants differing only in the sub-second component) produce
identical results, and for any two instants the two produced lines share
the same text before and after the timestamp field, so calls across a
second boundary differ only in the timestamp field. -/
theorem c6_deterministic_same_second :
    (∀ addr tmpl args dt1 dt2 w, sameSecond dt1 dt2 →
      log_message addr tmpl args dt1 w = log_message addr tmpl args dt2 w) ∧
    (∀ addr tmpl args dt1 dt2 (w : World) msg, pyFormat tmpl args = Except.ok msg →
      ∃ p q, (log_message addr tmpl args dt1 w).1.stdoutWrites =
          w.stdoutWrites ++ [p ++ log_date_time_string dt1 ++ q] ∧
        (log_message addr tmpl args dt2 w).1.stdoutWrites =
          w.stdoutWrites ++ [p ++ log_date_time_string dt2 ++ q]) := by
  constructor
  · intro addr tmpl args dt1 dt2 w h
    unfold log_message
    rw [ts_same_second dt1 dt2 h]
  · intro addr tmpl args dt1 dt2 w msg h
    have hline : ∀ t : String, addr ++ " - - [" ++ t ++ "] " ++ msg ++ "\n" =
        (addr ++ " - - [") ++ t ++ ("] " ++ msg ++ "\n") := by
      intro t
      apply str_eq_of_data
      simp [str_data_append]
    refine ⟨addr ++ " - - [", "] " ++ msg ++ "\n", ?_, ?_⟩ <;>
      simp only [log_message_ok addr tmpl args _ w msg h] <;>
      rw [← hline]

/-- Witness for C6: the same inputs at two sub-second instants of the same
second give identical results. -/
theorem c6_deterministic_same_second_witness :
    log_message "127.0.0.1" "%s" [.str "x"] dt0 World.init =
      log_message "127.0.0.1" "%s" [.str "x"] dt0' World.init :=
  c6_deterministic_same_second.1 "127.0.0.1" "%s" [.str "x"] dt0 dt0' World.init
    ⟨rfl, rfl, rfl, rfl, rfl, rfl⟩

/-- C9: `log_message` performs no sanitization or escaping: the rendered
argument is embedded verbatim in the single emitted write, so an argument
containing a newline makes that one write span more than one physical
output line (here: two newline characters, hence two physical lines, from
a single event). -/
theorem c9_no_sanitization :
    (∀ (addr : String) (dt : PyDateTime) (w : World) (s : String),
      log_message addr "%s" [.str s] dt w =
        ({ w with stdoutWrites := w.stdoutWrites ++
            [addr ++ " - - [" ++ log_date_time_string dt ++ "] " ++ s ++ "\n"] }, none)) ∧
    countNL ("127.0.0.1" ++ " - - [" ++ log_date_time_string dt0 ++ "] " ++ "a\nb" ++ "\n") = 2 ∧
    (splitLines ("127.0.0.1" ++ " - - [" ++ log_date_time_string dt0 ++ "] " ++ "a\nb" ++ "\n")).length = 2 := by
  refine ⟨?_, by decide, by decide⟩
  intro addr dt w s
  apply log_message_ok
  show pyFmt false ('%' :: 's' :: []) [.str s] = _
  simp [pyFmt, isFlagOrWidth, strOf]

/-- C10: a template whose argument arity is consistent with the caller's
intent can still fail: `'100% done'` with no arguments raises a formatting
error (CPython parses the space as a conversion flag and `d` as a
conversion needing an argument) and nothing is written; rendering can also
fail with `incompleteFormat` (trailing `%`) and, once an argument has been
fetched, `unsupportedFormatChar` -- with empty arguments an unknown
conversion still raises `notEnoughArguments`, because CPython fetches the
argument before validating the conversion character.  So failure is not
limited to wrong arity or incompatible types. -/
theorem c10_literal_percent_error :
    (∀ (addr : String) (dt : PyDateTime) (w : World),
      log_message addr "100% done" [] dt w = (w, some FormatError.notEnoughArguments)) ∧
    pyFormat "100%" [] = Except.error FormatError.incompleteFormat ∧
    pyFormat "%q" [] = Except.error FormatError.notEnoughArguments ∧
    pyFormat "%q" [.str "x"] = Except.error (FormatError.unsupportedFormatChar 'q') := by
  refine ⟨?_, rfl, rfl, rfl⟩
  intro addr dt w
  apply log_message_err
  rfl

/-! ## Claims about the server lifecycle -/

/-- C7: the server binds to the fixed local address `localhost` and fixed
port `8000`; the address tuple is built from two hard-coded literals and
the `__main__` block reads no command-line, environment or file input, so
no other bind configuration exists. -/
theorem c7_fixed_bind_address : serverAddress = ("localhost", 8000) := rfl

/-- C8: on `KeyboardInterrupt` while serving, the process stops serving,
prints exactly one one-line notice to standard error (the only stderr
write after the startup notice), closes the server socket in the `finally`
clause, and exits with status 0; standard output is untouched. -/
theorem c8_interrupt_shutdown (w : World) :
    (mainOnInterrupt w).stderrWrites = w.stderrWrites ++ [startNotice, exitNotice] ∧
    countNL exitNotice = 0 ∧
    (mainOnInterrupt w).serverClosed = true ∧
    (mainOnInterrupt w).exitCode = some 0 ∧
    (mainOnInterrupt w).stdoutWrites = w.stdoutWrites := by
  refine ⟨?_, by decide, rfl, rfl, rfl⟩
  simp [mainOnInterrupt]

/-! ## Ordered emission of event sequences -/

theorem goodEvent_renders (e : LogEvent) (h : goodEvent e = true) :
    ∃ msg, pyFormat e.tmpl e.args = Except.ok msg ∧ (∀ c ∈ msg.data, c ≠ '\n') ∧
      eventBody e = e.addr ++ " - - [" ++ log_date_time_string e.dt ++ "] " ++ msg := by
  unfold goodEvent at h
  rcases hp : pyFormat e.tmpl e.args with e' | msg <;> rw [hp] at h
  · simp at h
  · refine ⟨msg, rfl, ?_, ?_⟩
    · simp only [Bool.and_eq_true, List.all_eq_true] at h
      intro c hc
      have := h.2 c hc
      simpa using this
    · unfold eventBody
      rw [hp]

theorem goodEvent_fields (e : LogEvent) (h : goodEvent e = true) :
    ValidDT e.dt ∧ 1000 ≤ e.dt.year ∧ e.addr.data ≠ [] ∧
      ∀ c ∈ e.addr.data, isWS c = false := by
  unfold goodEvent at h
  simp only [Bool.and_eq_true, decide_eq_true_eq, Bool.not_eq_true', List.all_eq_true,
    List.isEmpty_eq_false] at h
  obtain ⟨⟨⟨⟨hv, hy⟩, hne⟩, hws⟩, _⟩ := h
  refine ⟨hv, hy, by simpa using hne, ?_⟩
  intro c hc
  simpa using hws c hc

theorem eventBody_data (e : LogEvent) (h : goodEvent e = true) :
    ∃ msg, pyFormat e.tmpl e.args = Except.ok msg ∧ (∀ c ∈ msg.data, c ≠ '\n') ∧
      (eventBody e).data = e.addr.data ++
        (' ' :: '-' :: ' ' :: '-' :: ' ' :: '[' ::
          ((log_date_time_string e.dt).data ++ ']' :: ' ' :: msg.data)) := by
  obtain ⟨msg, hp, hnl, hbody⟩ := goodEvent_renders e h
  refine ⟨msg, hp, hnl, ?_⟩
  rw [hbody]
  simp [str_data_append]

theorem runEvents_writes (events : List LogEvent) : ∀ (w : World),
    (∀ e ∈ events, goodEvent e = true) →
    (runEvents events w).stdoutWrites =
      w.stdoutWrites ++ events.map (fun e => eventBody e ++ "\n") := by
  induction events with
  | nil =>
    intro w _
    simp [runEvents]
  | cons e es ih =>
    intro w h
    obtain ⟨msg, hp, _, hbody⟩ := goodEvent_renders e (h e (by simp))
    show (runEvents es (log_message e.addr e.tmpl e.args e.dt w).1).stdoutWrites = _
    rw [log_message_ok e.addr e.tmpl e.args e.dt w msg hp]
    rw [ih _ (fun e' he' => h e' (by simp [he']))]
    simp only [List.map_cons, hbody]
    simp

theorem splitLinesAux_line (l : List Char) : ∀ (acc rest : List Char),
    (∀ c ∈ l, c ≠ '\n') →
    splitLinesAux (l ++ '\n' :: rest) acc = (acc.reverse ++ l) :: splitLinesAux rest [] := by
  induction l with
  | nil =>
    intro acc rest _
    show splitLinesAux ('\n' :: rest) acc = _
    simp [splitLinesAux]
  | cons c cs ih =>
    intro acc rest h
    have hc : c ≠ '\n' := h c (by simp)
    show splitLinesAux (c :: (cs ++ '\n' :: rest)) acc = _
    simp only [splitLinesAux]
    rw [if_neg hc, ih (c :: acc) rest (fun c' hc' => h c' (by simp [hc']))]
    simp

theorem splitLines_block (b : String) (rest : List Char) (h : ∀ c ∈ b.data, c ≠ '\n') :
    splitLinesAux ((b ++ "\n").data ++ rest) [] = b.data :: splitLinesAux rest [] := by
  rw [str_data_append]
  have : (b.data ++ "\n".data) ++ rest = b.data ++ '\n' :: rest := by simp
  rw [this, splitLinesAux_line b.data [] rest h]
  simp

theorem splitLines_bodies (events : List LogEvent)
    (h : ∀ e ∈ events, goodEvent e = true) :
    splitLines (strConcat (events.map (fun e => eventBody e ++ "\n"))) =
      events.map (fun e => (eventBody e).data) := by
  induction events with
  | nil => rfl
  | cons e es ih =>
    show splitLines ((eventBody e ++ "\n") ++ strConcat (es.map _)) = _
    unfold splitLines
    rw [str_data_append]
    obtain ⟨msg, hp, hnl, hbody⟩ := eventBody_data e (h e (by simp))
    have hbNL : ∀ c ∈ (eventBody e).data, c ≠ '\n' := by
      obtain ⟨hv, hy, _, hws⟩ := goodEvent_fields e (h e (by simp))
      rw [hbody]
      intro c hc
      rw [List.mem_append] at hc
      rcases hc with hc | hc
      · intro he
        subst he
        have := hws _ hc
        exact absurd this (by decide)
      · simp only [List.mem_cons] at hc
        rcases hc with rfl | rfl | rfl | rfl | rfl | rfl | hc
        · decide
        · decide
        · decide
        · decide
        · decide
        · decide
        · rw [List.mem_append] at hc
          rcases hc with hc | hc
          · exact (ts_chars e.dt hv hy c hc).1
          · simp only [List.mem_cons] at hc
            rcases hc with rfl | rfl | hc
            · decide
            · decide
            · exact hnl c hc
    rw [splitLines_block (eventBody e) _ hbNL]
    rw [show splitLinesAux (strConcat (es.map (fun e => eventBody e ++ "\n"))).data [] =
      splitLines (strConcat (es.map (fun e => eventBody e ++ "\n"))) from rfl]
    rw [ih (fun e' he' => h e' (by simp [he']))]
    rfl

theorem matchesCLFLine_build (addr ts msg : List Char)
    (h1 : addr ≠ []) (h2 : ∀ c ∈ addr, isWS c = false)
    (h3 : ts ≠ []) (h4 : ∀ c ∈ ts, c ≠ ']') (h5 : ∀ c ∈ msg, c ≠ '\n') :
    matchesCLFLine (addr ++ ' ' :: '-' :: ' ' :: '-' :: ' ' :: '[' ::
      (ts ++ ']' :: ' ' :: msg)) = true := by
  have hpos : ∀ a ∈ addr, (fun c => !(isWS c)) a = true := fun a ha => by simp [h2 a ha]
  have hpos2 : ∀ a ∈ ts, (fun c => !(c == ']')) a = true := fun a ha => by simp [h4 a ha]
  unfold matchesCLFLine
  dsimp only []
  rw [List.takeWhile_append_of_pos hpos, List.dropWhile_append_of_pos hpos,
    List.takeWhile_cons_of_neg (by decide), List.dropWhile_cons_of_neg (by decide)]
  have he1 : (addr ++ []).isEmpty = false := by
    simp [List.isEmpty_eq_false, h1]
  rw [he1]
  have hdl1 : dropLit (" - - [".data)
      (' ' :: '-' :: ' ' :: '-' :: ' ' :: '[' :: (ts ++ ']' :: ' ' :: msg)) =
      some (ts ++ ']' :: ' ' :: msg) := rfl
  rw [if_neg (by simp), hdl1]
  dsimp only []
  rw [List.takeWhile_append_of_pos hpos2, List.dropWhile_append_of_pos hpos2,
    List.takeWhile_cons_of_neg (by decide), List.dropWhile_cons_of_neg (by decide)]
  have he2 : (ts ++ []).isEmpty = false := by
    simp [List.isEmpty_eq_false, h3]
  rw [he2]
  have hdl2 : dropLit ("] ".data) (']' :: ' ' :: msg) = some msg := rfl
  rw [if_neg (by simp), hdl2]
  dsimp only []
  rw [List.all_eq_true]
  intro c hc
  simp [h5 c hc]

theorem eventBody_matchesCLFLine (e : LogEvent) (h : goodEvent e = true) :
    matchesCLFLine (eventBody e).data = true := by
  obtain ⟨msg, hp, hnl, hbody⟩ := eventBody_data e h
  obtain ⟨hv, hy, hne, hws⟩ := goodEvent_fields e h
  rw [hbody]
  exact matchesCLFLine_build e.addr.data (log_date_time_string e.dt).data msg.data
    hne hws (ts_ne_empty e.dt hv hy)
    (fun c hc => (ts_chars e.dt hv hy c hc).2) hnl

/-- C4 counterexample: a single-event sequence (N = 1) whose rendered
message embeds a newline produces two physical output lines, not one, so
the claim that every sequence of N events yields exactly N lines is false
as stated. -/
theorem c4_counterexample_newline :
    (splitLines (strConcat ((runEvents [evNL] World.init).stdoutWrites))).length ≠ 1 := by
  decide

/-- C4 (amended): for every sequence of N log events issued in order by a
single-threaded caller, provided each event renders successfully, has a
nonempty whitespace-free client address, and its rendered message is free
of embedded newlines, the captured standard output contains exactly N
lines, in issue order (the i-th line is the line of the i-th event), each
matching `^\S+ - - \[[^\]]+\] .*$`; each event's write completes before
its `log_message` call returns (`runEvents` threads the world through the
synchronous calls in order). -/
theorem c4_ordered_lines_amended (events : List LogEvent)
    (h : ∀ e ∈ events, goodEvent e = true) :
    splitLines (strConcat ((runEvents events World.init).stdoutWrites)) =
      events.map (fun e => (eventBody e).data) ∧
    (splitLines (strConcat ((runEvents events World.init).stdoutWrites))).length =
      events.length ∧
    ∀ l ∈ splitLines (strConcat ((runEvents events World.init).stdoutWrites)),
      matchesCLFLine l = true := by
  have hw := runEvents_writes events World.init h
  have hlines : splitLines (strConcat ((runEvents events World.init).stdoutWrites)) =
      events.map (fun e => (eventBody e).data) := by
    rw [hw]
    show splitLines (strConcat (events.map (fun e => eventBody e ++ "\n"))) = _
    exact splitLines_bodies events h
  refine ⟨hlines, by rw [hlines]; simp, ?_⟩
  rw [hlines]
  intro l hl
  rw [List.mem_map] at hl
  obtain ⟨e, he, rfl⟩ := hl
  exact eventBody_matchesCLFLine e (h e he)

/-- Witness for the amended C4 at a concrete two-event sequence. -/
theorem c4_ordered_lines_amended_witness :
    splitLines (strConcat ((runEvents [ev0, ev0] World.init).stdoutWrites)) =
      [ev0, ev0].map (fun e => (eventBody e).data) ∧
    (splitLines (strConcat ((runEvents [ev0, ev0] World.init).stdoutWrites))).length =
      [ev0, ev0].length ∧
    ∀ l ∈ splitLines (strConcat ((runEvents [ev0, ev0] World.init).stdoutWrites)),
      matchesCLFLine l = true :=
  c4_ordered_lines_amended [ev0, ev0] (by decide)

end Redeye
